import Mathlib

/-!
# Farmer registration upload pipeline (`main.go`)

A shallow embedding of `handleUpload`, `classifyImage` and `checkDuplicate`.

The program is a sequence of effects on one uploaded file handle, two
downstream HTTP endpoints and the response writer.  The embedding passes the
state of the file handle explicitly and records every effect in a trace:

* draining the upload handle with `io.Copy` is `Event.read`,
* `http.Post` is `Event.post`, carrying the structured multipart body,
* `c.AbortWithStatusJSON` and `c.JSON` are the two response events,
* the deferred `image.Close()` is `Event.close`.

What lies outside `main.go` is a parameter (`Env`): the reply of `http.Post`
and the outcome of `json.Decoder.Decode` on a reply body.  The multipart
boundary is random and is abstracted: a body is its list of parts.
-/

namespace FarmerRegistration

/-! ## Constants and data types of `main.go` -/

def classifyEndpoint : String := "http://localhost:8080/classify"

def checkEndpoint : String := "http://localhost:8081/check"

/-- The type `CheckResponse` of `main.go`: the decoded reply of the dedupe
endpoint. -/
structure CheckResponse where
  Duplicate : Bool
  Message : String
  deriving DecidableEq, Repr

/-- The map `gin.H` restricted to string values: the JSON object of a response. -/
abbrev H := List (String × String)

def StatusOK : Nat := 200

def StatusBadRequest : Nat := 400

def StatusInternalServerError : Nat := 500

/-! ## Errors

Go errors are values with identity; the constructors keep apart the places an
error can come from, `Error.message` gives the text where `main.go` fixes it. -/

inductive Error where
  /-- The error made by `errors.New("unsupported file type")`. -/
  | unsupportedFileType
  /-- The error made by `fmt.Errorf("classification endpoint returned %d status code", code)`. -/
  | classifyStatus (code : Nat)
  /-- The error made by `fmt.Errorf("duplicate check endpoint returned %d status code", code)`. -/
  | checkStatus (code : Nat)
  /-- An error returned by `Read` on the upload handle, through `io.Copy`. -/
  | read (msg : String)
  /-- An error returned by `http.Post`. -/
  | transport (msg : String)
  /-- An error returned by `json.Decoder.Decode`. -/
  | decode (msg : String)
  /-- An error returned by the multipart writer. -/
  | write (msg : String)
  deriving DecidableEq, Repr

def Error.message : Error → String
  | .unsupportedFileType => "unsupported file type"
  | .classifyStatus code => "classification endpoint returned " ++ toString code ++ " status code"
  | .checkStatus code => "duplicate check endpoint returned " ++ toString code ++ " status code"
  | .read msg => msg
  | .transport msg => msg
  | .decode msg => msg
  | .write msg => msg

/-! ## The upload handle (`multipart.File`) -/

/-- A non-nil `multipart.File`.  A `stream` is a readable handle with a read
offset; `invalid` is a handle on which `Read` fails (for instance the nil
`*os.File` that `os.Open` returns together with its error). -/
inductive File where
  | invalid (err : String)
  | stream (content : List UInt8) (offset : Nat)
  deriving DecidableEq, Repr

/-- The source side of `io.Copy(part, imageFile)`: read from the current offset
up to end of file.  The offset is left at the end; nothing rewinds it. -/
def File.readAll : File → Except Error (List UInt8) × File
  | .invalid err => (.error (.read err), .invalid err)
  | .stream content offset => (.ok (content.drop offset), .stream content (max offset content.length))

/-! ## Multipart bodies (`mime/multipart.Writer` over a `bytes.Buffer`) -/

inductive Part where
  /-- A part made by `CreateFormFile(fieldname, filename)`, with its content. -/
  | file (fieldname filename : String) (content : List UInt8)
  /-- A part made by `WriteField(fieldname, value)`. -/
  | field (fieldname value : String)
  deriving DecidableEq, Repr

/-- The buffer of the writer, as the parts written so far, in order. -/
structure Writer where
  parts : List Part
  deriving DecidableEq, Repr

def NewWriter : Writer := ⟨[]⟩

/-- The call `writer.CreateFormFile`: opens a file part; writes into a
`bytes.Buffer` do not fail. -/
def Writer.CreateFormFile (w : Writer) (fieldname filename : String) : Except Error Writer :=
  .ok ⟨w.parts ++ [Part.file fieldname filename []]⟩

/-- Writing `bytes` into the part opened last (the destination side of `io.Copy`). -/
def Writer.writeToPart (w : Writer) (bytes : List UInt8) : Writer :=
  match w.parts.reverse with
  | Part.file fieldname filename content :: rest =>
      ⟨(Part.file fieldname filename (content ++ bytes) :: rest).reverse⟩
  | _ => w

/-- The call `writer.WriteField`: appends a text part. -/
def Writer.WriteField (w : Writer) (fieldname value : String) : Except Error Writer :=
  .ok ⟨w.parts ++ [Part.field fieldname value]⟩

/-- The call `writer.Close`: writes the closing boundary, which the part list
abstracts. -/
def Writer.Close (w : Writer) : Except Error Writer := .ok w

/-! ## Effects -/

inductive Event where
  /-- The copy `io.Copy` drained the upload handle and obtained `bytes`. -/
  | read (bytes : List UInt8)
  /-- The copy `io.Copy` met a read error on the upload handle. -/
  | readFailed
  /-- The call `http.Post(url, writer.FormDataContentType(), buffer)`. -/
  | post (url : String) (body : List Part)
  /-- The call `c.AbortWithStatusJSON(code, obj)`. -/
  | abortWithStatusJSON (code : Nat) (obj : H)
  /-- The call `c.JSON(code, obj)`. -/
  | json (code : Nat) (obj : H)
  /-- The deferred `image.Close()`. -/
  | close
  deriving DecidableEq, Repr

/-- The copy `io.Copy(part, imageFile)`: the new writer or the read error, the handle
afterwards, and the effect. -/
def ioCopy (w : Writer) (f : File) : Except Error Writer × File × List Event :=
  match f.readAll with
  | (.ok bytes, f') => (.ok (w.writeToPart bytes), f', [Event.read bytes])
  | (.error e, f') => (.error e, f', [Event.readFailed])

/-! ## The environment: downstream endpoints and JSON decoding -/

/-- The part of `http.Response` that `main.go` inspects. -/
structure Response where
  StatusCode : Nat
  Body : String
  deriving DecidableEq, Repr

/-- What `main.go` calls and does not define. -/
structure Env where
  /-- The call `http.Post(url, contentType, body)`: a reply or a transport error. -/
  Post : String → List Part → Except String Response
  /-- The call `json.NewDecoder(body).Decode(&response)` for
  `struct { Result string }`: the decoded `Result` or the error of the decoder. -/
  decodeResult : String → Except String String
  /-- The call `json.NewDecoder(body).Decode(&response)` for `CheckResponse`. -/
  decodeCheck : String → Except String CheckResponse

/-- What a client function hands back: its Go result pair, the upload handle
afterwards, and the effects it had. -/
structure Ret (α : Type) where
  val : Except Error α
  file : File
  trace : List Event

/-! ## `classifyImage` -/

def classifyImage (env : Env) (imageFile : File) : Ret Bool :=
  let writer := NewWriter
  match writer.CreateFormFile "image" "image.jpg" with
  | .error err => ⟨.error err, imageFile, []⟩
  | .ok writer =>
    match ioCopy writer imageFile with
    | (.error err, imageFile, evs) => ⟨.error err, imageFile, evs⟩
    | (.ok writer, imageFile, evs) =>
      -- `writer.Close()`: its error is ignored
      let writer := match writer.Close with
        | .ok w => w
        | .error _ => writer
      match env.Post classifyEndpoint writer.parts with
      | .error err =>
          ⟨.error (.transport err), imageFile, evs ++ [Event.post classifyEndpoint writer.parts]⟩
      | .ok resp =>
        let evs := evs ++ [Event.post classifyEndpoint writer.parts]
        if resp.StatusCode ≠ StatusOK then
          ⟨.error (.classifyStatus resp.StatusCode), imageFile, evs⟩
        else
          match env.decodeResult resp.Body with
          | .error err => ⟨.error (.decode err), imageFile, evs⟩
          | .ok result => ⟨.ok (decide (result = "kolam")), imageFile, evs⟩

/-! ## `checkDuplicate` -/

/-- Scan of `filepath.Ext` over the reversed path: `acc` is the suffix passed
so far.  The scan stops without an extension at a path separator. -/
def extScan : List Char → List Char → List Char
  | [], _ => []
  | c :: rest, acc =>
    if c = '/' then []
    else if c = '.' then '.' :: acc
    else extScan rest (c :: acc)

/-- The function `filepath.Ext`: the suffix beginning at the final dot in the
final element of the path; empty if there is no dot.  The path separator is
`/`; the dot and the separator are ASCII, so scanning characters agrees with
the byte scan of the library. -/
def Ext (path : String) : String := String.mk (extScan path.toList.reverse [])

def checkDuplicate (env : Env) (imageFile : File) (namaPetani alamat kota nameFile : String) :
    Ret Bool :=
  let ext := Ext nameFile
  if ext ≠ ".png" ∧ ext ≠ ".jpg" then
    ⟨.error .unsupportedFileType, imageFile, []⟩
  else
    let writer := NewWriter
    match writer.CreateFormFile "image" ext with
    | .error err => ⟨.error err, imageFile, []⟩
    | .ok writer =>
      match ioCopy writer imageFile with
      | (.error err, imageFile, evs) => ⟨.error err, imageFile, evs⟩
      | (.ok writer, imageFile, evs) =>
        match writer.WriteField "nama_petani" namaPetani with
        | .error err => ⟨.error err, imageFile, evs⟩
        | .ok writer =>
          match writer.WriteField "alamat" alamat with
          | .error err => ⟨.error err, imageFile, evs⟩
          | .ok writer =>
            match writer.WriteField "kota" kota with
            | .error err => ⟨.error err, imageFile, evs⟩
            | .ok writer =>
              match writer.Close with
              | .error err => ⟨.error err, imageFile, evs⟩
              | .ok writer =>
                match env.Post checkEndpoint writer.parts with
                | .error err =>
                    ⟨.error (.transport err), imageFile,
                      evs ++ [Event.post checkEndpoint writer.parts]⟩
                | .ok resp =>
                  let evs := evs ++ [Event.post checkEndpoint writer.parts]
                  if resp.StatusCode ≠ StatusOK then
                    ⟨.error (.checkStatus resp.StatusCode), imageFile, evs⟩
                  else
                    match env.decodeCheck resp.Body with
                    | .error err => ⟨.error (.decode err), imageFile, evs⟩
                    | .ok response => ⟨.ok response.Duplicate, imageFile, evs⟩

/-! ## `handleUpload` -/

/-- The type `multipart.FileHeader`: the file name and what `Open` returns, a Go pair of
a handle (`none` is the nil interface) and an error (`none` is nil). -/
structure FileHeader where
  Filename : String
  Open : Option File × Option String

/-- The part of `gin.Context` that `handleUpload` reads. -/
structure Context where
  /-- The call `c.PostForm(key)`: the value, empty when the key is absent. -/
  PostForm : String → String
  /-- The call `c.FormFile(name)`: the header of the file part or an error. -/
  FormFile : String → Except String FileHeader

/-- One run of the handler: its effects, and whether it ended in a panic. -/
structure Run where
  trace : List Event
  panicked : Bool
  deriving DecidableEq, Repr

def handleUpload (env : Env) (c : Context) : Run :=
  let namaPetani := c.PostForm "nama_petani"
  let alamat := c.PostForm "alamat"
  let kota := c.PostForm "kota"
  match c.FormFile "image" with
  | .error _ =>
      ⟨[Event.abortWithStatusJSON StatusBadRequest [("error", "Missing image in form data")]], false⟩
  | .ok imageHeader =>
    let image := imageHeader.Open.1
    let err := imageHeader.Open.2
    -- the branch `if err != nil` aborts with 400 and has no `return`
    let evs : List Event := match err with
      | some _ =>
          [Event.abortWithStatusJSON StatusBadRequest [("error", "Failed to open uploaded file")]]
      | none => []
    match image with
    | none =>
        -- `defer image.Close()` on a nil interface value panics
        ⟨evs, true⟩
    | some image =>
      let r := classifyImage env image
      let evs := evs ++ r.trace
      match r.val with
      | .error _ =>
          ⟨evs ++ [Event.abortWithStatusJSON StatusInternalServerError
            [("error", "Failed to classify image")], Event.close], false⟩
      | .ok isKolam =>
        if !isKolam then
          ⟨evs ++ [Event.abortWithStatusJSON StatusBadRequest
            [("error", "Image is not a kolam")], Event.close], false⟩
        else
          let r := checkDuplicate env r.file namaPetani alamat kota imageHeader.Filename
          let evs := evs ++ r.trace
          match r.val with
          | .error _ =>
              ⟨evs ++ [Event.abortWithStatusJSON StatusInternalServerError
                [("error", "Failed to check duplicate")], Event.close], false⟩
          | .ok isDuplicate =>
            if isDuplicate then
              ⟨evs ++ [Event.json StatusOK [("message", "Image is a duplicate")], Event.close], false⟩
            else
              ⟨evs ++ [Event.json StatusOK [("message", "Image classified as kolam")], Event.close],
                false⟩

/-! ## Reading a trace -/

/-- The responses written to the caller, in order. -/
def responses : List Event → List (Nat × H)
  | [] => []
  | Event.abortWithStatusJSON code obj :: evs => (code, obj) :: responses evs
  | Event.json code obj :: evs => (code, obj) :: responses evs
  | _ :: evs => responses evs

/-- The bodies posted to `url`, in order. -/
def postsTo (url : String) : List Event → List (List Part)
  | [] => []
  | Event.post u body :: evs => if u = url then body :: postsTo url evs else postsTo url evs
  | _ :: evs => postsTo url evs

/-- The byte contents of the file parts of a multipart body. -/
def fileBytes : List Part → List (List UInt8)
  | [] => []
  | Part.file _ _ content :: ps => content :: fileBytes ps
  | Part.field _ _ :: ps => fileBytes ps

/-- The reads of the upload handle, in order. -/
def reads : List Event → List Event
  | [] => []
  | Event.read bytes :: evs => Event.read bytes :: reads evs
  | Event.readFailed :: evs => Event.readFailed :: reads evs
  | _ :: evs => reads evs

/-! ## Scenarios

Concrete environments and requests, on which the definitions above evaluate. -/

def kolamBody : String := "\x7b\"result\":\"kolam\"\x7d"

def otherBody : String := "\x7b\"result\":\"other\"\x7d"

def notDuplicateBody : String := "\x7b\"duplicate\":false,\"message\":\"ok\"\x7d"

def duplicateBody : String := "\x7b\"duplicate\":true,\"message\":\"seen\"\x7d"

/-- The decoder of classifier replies on the bodies of the scenarios; any other
body is malformed. -/
def scenarioDecodeResult (body : String) : Except String String :=
  if body = kolamBody then .ok "kolam"
  else if body = otherBody then .ok "other"
  else .error "invalid character"

/-- The decoder of dedupe replies on the bodies of the scenarios; any other
body is malformed. -/
def scenarioDecodeCheck (body : String) : Except String CheckResponse :=
  if body = notDuplicateBody then .ok ⟨false, "ok"⟩
  else if body = duplicateBody then .ok ⟨true, "seen"⟩
  else .error "invalid character"

/-- An environment whose classifier endpoint always gives `classifyReply` and
whose dedupe endpoint always gives `checkReply`. -/
def scenarioEnv (classifyReply checkReply : Except String Response) : Env where
  Post := fun url _ => if url = classifyEndpoint then classifyReply else checkReply
  decodeResult := scenarioDecodeResult
  decodeCheck := scenarioDecodeCheck

/-- A request with the three text fields and, when `image` is given, a file
part named `image`. -/
def upload (namaPetani alamat kota : String) (image : Option FileHeader) : Context where
  PostForm := fun key =>
    if key = "nama_petani" then namaPetani
    else if key = "alamat" then alamat
    else if key = "kota" then kota
    else ""
  FormFile := fun name =>
    match image with
    | some hdr => if name = "image" then .ok hdr else .error "http: no such file"
    | none => .error "http: no such file"

/-- An upload of `content` under `filename` whose `Open` succeeds. -/
def opened (filename : String) (content : List UInt8) : FileHeader :=
  ⟨filename, (some (File.stream content 0), none)⟩

/-- An upload under `filename` whose `Open` fails as `os.Open` does: a handle
on which every read fails, together with the error. -/
def unopened (filename : String) : FileHeader :=
  ⟨filename, (some (File.invalid "invalid argument"), some "no such file or directory")⟩

/-! # Theorems -/

/-! ## Reading traces: basic facts -/

theorem responses_append (xs ys : List Event) :
    responses (xs ++ ys) = responses xs ++ responses ys := by
  induction xs with
  | nil => rfl
  | cons x xs ih => cases x <;> simp [responses, ih]

theorem postsTo_append (url : String) (xs ys : List Event) :
    postsTo url (xs ++ ys) = postsTo url xs ++ postsTo url ys := by
  induction xs with
  | nil => rfl
  | cons x xs ih =>
    cases x <;> simp [postsTo, ih]
    split <;> simp

theorem endpoints_differ : classifyEndpoint ≠ checkEndpoint := by decide

/-! ## Normal forms of the two clients on a readable handle -/

theorem classifyImage_stream (env : Env) (content : List UInt8) (off : Nat) :
    classifyImage env (.stream content off) =
      match env.Post classifyEndpoint [Part.file "image" "image.jpg" (content.drop off)] with
      | .error err =>
          ⟨.error (.transport err), .stream content (max off content.length),
            [Event.read (content.drop off),
             Event.post classifyEndpoint [Part.file "image" "image.jpg" (content.drop off)]]⟩
      | .ok resp =>
          ⟨if resp.StatusCode ≠ StatusOK then .error (.classifyStatus resp.StatusCode)
            else match env.decodeResult resp.Body with
              | .error err => .error (.decode err)
              | .ok result => .ok (decide (result = "kolam")),
            .stream content (max off content.length),
            [Event.read (content.drop off),
             Event.post classifyEndpoint [Part.file "image" "image.jpg" (content.drop off)]]⟩ := by
  simp only [classifyImage, NewWriter, Writer.CreateFormFile, ioCopy, File.readAll,
    Writer.writeToPart, Writer.Close, List.nil_append, List.reverse_cons, List.reverse_nil,
    List.singleton_append, List.cons_append]
  cases hp : env.Post classifyEndpoint [Part.file "image" "image.jpg" (content.drop off)] with
  | error err => rfl
  | ok resp =>
    by_cases hs : resp.StatusCode = StatusOK
    · cases hd : env.decodeResult resp.Body <;> simp [hs, hd]
    · simp [hs]

theorem classifyImage_invalid (env : Env) (msg : String) :
    classifyImage env (.invalid msg) = ⟨.error (.read msg), .invalid msg, [Event.readFailed]⟩ := by
  rfl

theorem checkDuplicate_stream (env : Env) (content : List UInt8) (off : Nat)
    (namaPetani alamat kota nameFile : String)
    (hext : Ext nameFile = ".png" ∨ Ext nameFile = ".jpg") :
    checkDuplicate env (.stream content off) namaPetani alamat kota nameFile =
      match env.Post checkEndpoint [Part.file "image" (Ext nameFile) (content.drop off),
          Part.field "nama_petani" namaPetani, Part.field "alamat" alamat,
          Part.field "kota" kota] with
      | .error err =>
          ⟨.error (.transport err), .stream content (max off content.length),
            [Event.read (content.drop off),
             Event.post checkEndpoint [Part.file "image" (Ext nameFile) (content.drop off),
               Part.field "nama_petani" namaPetani, Part.field "alamat" alamat,
               Part.field "kota" kota]]⟩
      | .ok resp =>
          ⟨if resp.StatusCode ≠ StatusOK then .error (.checkStatus resp.StatusCode)
            else match env.decodeCheck resp.Body with
              | .error err => .error (.decode err)
              | .ok response => .ok response.Duplicate,
            .stream content (max off content.length),
            [Event.read (content.drop off),
             Event.post checkEndpoint [Part.file "image" (Ext nameFile) (content.drop off),
               Part.field "nama_petani" namaPetani, Part.field "alamat" alamat,
               Part.field "kota" kota]]⟩ := by
  have hne : ¬ (Ext nameFile ≠ ".png" ∧ Ext nameFile ≠ ".jpg") := by
    rcases hext with h | h <;> simp [h]
  simp only [checkDuplicate, hne, if_false, NewWriter, Writer.CreateFormFile, ioCopy,
    File.readAll, Writer.writeToPart, Writer.WriteField, Writer.Close, List.nil_append,
    List.reverse_cons, List.reverse_nil, List.singleton_append, List.cons_append]
  cases hp : env.Post checkEndpoint [Part.file "image" (Ext nameFile) (content.drop off),
          Part.field "nama_petani" namaPetani, Part.field "alamat" alamat,
          Part.field "kota" kota] with
  | error err => rfl
  | ok resp =>
    by_cases hs : resp.StatusCode = StatusOK
    · cases hd : env.decodeCheck resp.Body <;> simp [hs, hd]
    · simp [hs]

theorem checkDuplicate_invalid (env : Env) (msg namaPetani alamat kota nameFile : String)
    (hext : Ext nameFile = ".png" ∨ Ext nameFile = ".jpg") :
    checkDuplicate env (.invalid msg) namaPetani alamat kota nameFile =
      ⟨.error (.read msg), .invalid msg, [Event.readFailed]⟩ := by
  have hne : ¬ (Ext nameFile ≠ ".png" ∧ Ext nameFile ≠ ".jpg") := by
    rcases hext with h | h <;> simp [h]
  simp [checkDuplicate, hne, NewWriter, Writer.CreateFormFile, ioCopy, File.readAll]

theorem checkDuplicate_unsupported (env : Env) (f : File)
    (namaPetani alamat kota nameFile : String)
    (hext : ¬ (Ext nameFile = ".png" ∨ Ext nameFile = ".jpg")) :
    checkDuplicate env f namaPetani alamat kota nameFile =
      ⟨.error .unsupportedFileType, f, []⟩ := by
  have hne : Ext nameFile ≠ ".png" ∧ Ext nameFile ≠ ".jpg" := by
    constructor <;> intro h <;> exact hext (by simp [h])
  simp [checkDuplicate, hne]

/-! ## The clients write no response, and each posts to its own endpoint only -/

theorem classifyImage_responses (env : Env) (f : File) :
    responses (classifyImage env f).trace = [] := by
  cases f with
  | invalid msg => rfl
  | stream content off =>
    rw [classifyImage_stream]
    split <;> rfl

theorem classifyImage_postsTo_check (env : Env) (f : File) :
    postsTo checkEndpoint (classifyImage env f).trace = [] := by
  cases f with
  | invalid msg => rfl
  | stream content off =>
    rw [classifyImage_stream]
    split <;> simp [postsTo, endpoints_differ]

theorem checkDuplicate_responses (env : Env) (f : File)
    (namaPetani alamat kota nameFile : String) :
    responses (checkDuplicate env f namaPetani alamat kota nameFile).trace = [] := by
  by_cases hext : Ext nameFile = ".png" ∨ Ext nameFile = ".jpg"
  · cases f with
    | invalid msg => rw [checkDuplicate_invalid _ _ _ _ _ _ hext]; rfl
    | stream content off =>
      rw [checkDuplicate_stream _ _ _ _ _ _ _ hext]
      split <;> rfl
  · rw [checkDuplicate_unsupported _ _ _ _ _ _ hext]; rfl

/-! ## The handler after a successful `Open` -/

theorem handleUpload_opened (env : Env) (c : Context) (hdr : FileHeader) (content : List UInt8)
    (hform : c.FormFile "image" = .ok hdr)
    (hopen : hdr.Open = (some (File.stream content 0), none)) :
    handleUpload env c =
      match (classifyImage env (.stream content 0)).val with
      | .error _ =>
          ⟨(classifyImage env (.stream content 0)).trace ++
            [Event.abortWithStatusJSON StatusInternalServerError
              [("error", "Failed to classify image")], Event.close], false⟩
      | .ok isKolam =>
        if !isKolam then
          ⟨(classifyImage env (.stream content 0)).trace ++
            [Event.abortWithStatusJSON StatusBadRequest
              [("error", "Image is not a kolam")], Event.close], false⟩
        else
          match (checkDuplicate env (classifyImage env (.stream content 0)).file
              (c.PostForm "nama_petani") (c.PostForm "alamat") (c.PostForm "kota")
              hdr.Filename).val with
          | .error _ =>
              ⟨(classifyImage env (.stream content 0)).trace ++
                (checkDuplicate env (classifyImage env (.stream content 0)).file
                  (c.PostForm "nama_petani") (c.PostForm "alamat") (c.PostForm "kota")
                  hdr.Filename).trace ++
                [Event.abortWithStatusJSON StatusInternalServerError
                  [("error", "Failed to check duplicate")], Event.close], false⟩
          | .ok isDuplicate =>
              ⟨(classifyImage env (.stream content 0)).trace ++
                (checkDuplicate env (classifyImage env (.stream content 0)).file
                  (c.PostForm "nama_petani") (c.PostForm "alamat") (c.PostForm "kota")
                  hdr.Filename).trace ++
                [Event.json StatusOK [("message",
                  if isDuplicate then "Image is a duplicate" else "Image classified as kolam")],
                 Event.close], false⟩ := by
  simp only [handleUpload, hform, hopen, List.nil_append]
  cases hk : (classifyImage env (.stream content 0)).val with
  | error e => rfl
  | ok isKolam =>
    cases isKolam with
    | false => rfl
    | true =>
      simp only [Bool.not_true, Bool.false_eq_true, if_false]
      cases hd : (checkDuplicate env (classifyImage env (.stream content 0)).file
              (c.PostForm "nama_petani") (c.PostForm "alamat") (c.PostForm "kota")
              hdr.Filename).val with
      | error e => rfl
      | ok isDuplicate => cases isDuplicate <;> simp

theorem classifyImage_stream_file (env : Env) (content : List UInt8) (off : Nat) :
    (classifyImage env (.stream content off)).file = .stream content (max off content.length) := by
  rw [classifyImage_stream]
  split <;> rfl

theorem classifyImage_stream_trace (env : Env) (content : List UInt8) (off : Nat) :
    (classifyImage env (.stream content off)).trace =
      [Event.read (content.drop off),
       Event.post classifyEndpoint [Part.file "image" "image.jpg" (content.drop off)]] := by
  rw [classifyImage_stream]
  split <;> rfl

theorem checkDuplicate_stream_trace (env : Env) (content : List UInt8) (off : Nat)
    (namaPetani alamat kota nameFile : String)
    (hext : Ext nameFile = ".png" ∨ Ext nameFile = ".jpg") :
    (checkDuplicate env (.stream content off) namaPetani alamat kota nameFile).trace =
      [Event.read (content.drop off),
       Event.post checkEndpoint [Part.file "image" (Ext nameFile) (content.drop off),
         Part.field "nama_petani" namaPetani, Part.field "alamat" alamat,
         Part.field "kota" kota]] := by
  rw [checkDuplicate_stream _ _ _ _ _ _ _ hext]
  split <;> rfl

/-- On an upload that opens, once the classifier has confirmed kolam and the
extension is accepted, the handler posts once to each endpoint: the classifier
receives the uploaded bytes, the dedupe endpoint a file part holding what is
left of the handle after the first read, which is nothing. -/
theorem handleUpload_kolam_posts (env : Env) (c : Context) (hdr : FileHeader)
    (content : List UInt8)
    (hform : c.FormFile "image" = .ok hdr)
    (hopen : hdr.Open = (some (File.stream content 0), none))
    (hkolam : (classifyImage env (.stream content 0)).val = .ok true)
    (hext : Ext hdr.Filename = ".png" ∨ Ext hdr.Filename = ".jpg") :
    postsTo classifyEndpoint (handleUpload env c).trace =
        [[Part.file "image" "image.jpg" content]] ∧
    postsTo checkEndpoint (handleUpload env c).trace =
        [[Part.file "image" (Ext hdr.Filename) [],
          Part.field "nama_petani" (c.PostForm "nama_petani"),
          Part.field "alamat" (c.PostForm "alamat"),
          Part.field "kota" (c.PostForm "kota")]] := by
  rw [handleUpload_opened env c hdr content hform hopen, hkolam]
  simp only [Bool.not_true, Bool.false_eq_true, if_false, classifyImage_stream_file,
    classifyImage_stream_trace, Nat.zero_max, List.drop_zero]
  have ht := checkDuplicate_stream_trace env content content.length
    (c.PostForm "nama_petani") (c.PostForm "alamat") (c.PostForm "kota") hdr.Filename hext
  rw [List.drop_length] at ht
  split <;> simp [ht, postsTo, endpoints_differ, endpoints_differ.symm]

/-! ## The handler after a failed `Open` -/

/-- After a failed `Open` that gave back a handle on which reads fail, the
handler writes the 400, runs `classifyImage`, whose copy fails, and writes a
500 after it. -/
theorem handleUpload_failed_open_invalid (env : Env) (c : Context) (hdr : FileHeader)
    (msg err : String)
    (hform : c.FormFile "image" = .ok hdr)
    (hopen : hdr.Open = (some (File.invalid msg), some err)) :
    handleUpload env c =
      ⟨[Event.abortWithStatusJSON 400 [("error", "Failed to open uploaded file")],
        Event.readFailed,
        Event.abortWithStatusJSON 500 [("error", "Failed to classify image")],
        Event.close], false⟩ := by
  simp [handleUpload, hform, hopen, classifyImage_invalid, StatusBadRequest,
    StatusInternalServerError]

/-- After a failed `Open` that gave back the nil interface, the handler writes
the 400 and panics. -/
theorem handleUpload_failed_open_nil (env : Env) (c : Context) (hdr : FileHeader)
    (err : String)
    (hform : c.FormFile "image" = .ok hdr)
    (hopen : hdr.Open = (none, some err)) :
    handleUpload env c =
      ⟨[Event.abortWithStatusJSON 400 [("error", "Failed to open uploaded file")]], true⟩ := by
  simp [handleUpload, hform, hopen, StatusBadRequest]

/-! ## C1: the bytes sent to the two endpoints -/

/-- C1, at a failing input: `photo.jpg` with the three bytes `FF D8 FF` is
uploaded, the classifier answers 200 with result `kolam`.  The handler posts
once to each endpoint; the file part sent to the classifier holds the three
bytes, the file part sent to the dedupe endpoint holds none, because the first
`io.Copy` left the handle at end of file and nothing rewinds it. -/
theorem handleUpload_dedupe_file_part_is_empty :
    postsTo classifyEndpoint
        (handleUpload (scenarioEnv (.ok ⟨200, kolamBody⟩) (.ok ⟨200, notDuplicateBody⟩))
          (upload "Budi" "Jl. Mawar 1" "Bandung"
            (some (opened "photo.jpg" [255, 216, 255])))).trace =
      [[Part.file "image" "image.jpg" [255, 216, 255]]] ∧
    postsTo checkEndpoint
        (handleUpload (scenarioEnv (.ok ⟨200, kolamBody⟩) (.ok ⟨200, notDuplicateBody⟩))
          (upload "Budi" "Jl. Mawar 1" "Bandung"
            (some (opened "photo.jpg" [255, 216, 255])))).trace =
      [[Part.file "image" ".jpg" [], Part.field "nama_petani" "Budi",
        Part.field "alamat" "Jl. Mawar 1", Part.field "kota" "Bandung"]] ∧
    reads
        (handleUpload (scenarioEnv (.ok ⟨200, kolamBody⟩) (.ok ⟨200, notDuplicateBody⟩))
          (upload "Budi" "Jl. Mawar 1" "Bandung"
            (some (opened "photo.jpg" [255, 216, 255])))).trace =
      [Event.read [255, 216, 255], Event.read []] ∧
    (postsTo checkEndpoint
        (handleUpload (scenarioEnv (.ok ⟨200, kolamBody⟩) (.ok ⟨200, notDuplicateBody⟩))
          (upload "Budi" "Jl. Mawar 1" "Bandung"
            (some (opened "photo.jpg" [255, 216, 255])))).trace).map fileBytes ≠
      (postsTo classifyEndpoint
        (handleUpload (scenarioEnv (.ok ⟨200, kolamBody⟩) (.ok ⟨200, notDuplicateBody⟩))
          (upload "Budi" "Jl. Mawar 1" "Bandung"
            (some (opened "photo.jpg" [255, 216, 255])))).trace).map fileBytes := by
  decide

/-! ## C2: a verdict other than kolam -/

/-- C2: when the image is present and opens, and the classifier answers 200
with a decoded result other than `kolam`, the handler reads the upload once,
posts to the classifier once, never posts to the dedupe endpoint, and writes
the single response 400 with body `error: Image is not a kolam`. -/
theorem handleUpload_rejects_other_result (env : Env) (c : Context) (hdr : FileHeader)
    (content : List UInt8) (resp : Response) (result : String)
    (hform : c.FormFile "image" = .ok hdr)
    (hopen : hdr.Open = (some (File.stream content 0), none))
    (hpost : env.Post classifyEndpoint [Part.file "image" "image.jpg" content] = .ok resp)
    (hstatus : resp.StatusCode = 200)
    (hdec : env.decodeResult resp.Body = .ok result)
    (hresult : result ≠ "kolam") :
    handleUpload env c =
      ⟨[Event.read content,
        Event.post classifyEndpoint [Part.file "image" "image.jpg" content],
        Event.abortWithStatusJSON 400 [("error", "Image is not a kolam")],
        Event.close], false⟩ ∧
    postsTo checkEndpoint (handleUpload env c).trace = [] ∧
    responses (handleUpload env c).trace = [(400, [("error", "Image is not a kolam")])] := by
  have hrun : handleUpload env c =
      ⟨[Event.read content,
        Event.post classifyEndpoint [Part.file "image" "image.jpg" content],
        Event.abortWithStatusJSON 400 [("error", "Image is not a kolam")],
        Event.close], false⟩ := by
    rw [handleUpload_opened env c hdr content hform hopen, classifyImage_stream]
    simp [hpost, hstatus, hdec, hresult, StatusOK, StatusBadRequest]
  rw [hrun]
  simp [postsTo, responses, endpoints_differ]

theorem handleUpload_rejects_other_result_witness :
    handleUpload (scenarioEnv (.ok ⟨200, otherBody⟩) (.ok ⟨200, notDuplicateBody⟩))
        (upload "Budi" "Jl. Mawar 1" "Bandung" (some (opened "photo.png" [137, 80, 78, 71]))) =
      ⟨[Event.read [137, 80, 78, 71],
        Event.post classifyEndpoint [Part.file "image" "image.jpg" [137, 80, 78, 71]],
        Event.abortWithStatusJSON 400 [("error", "Image is not a kolam")],
        Event.close], false⟩ ∧
    postsTo checkEndpoint
      (handleUpload (scenarioEnv (.ok ⟨200, otherBody⟩) (.ok ⟨200, notDuplicateBody⟩))
        (upload "Budi" "Jl. Mawar 1" "Bandung"
          (some (opened "photo.png" [137, 80, 78, 71])))).trace = [] ∧
    responses
      (handleUpload (scenarioEnv (.ok ⟨200, otherBody⟩) (.ok ⟨200, notDuplicateBody⟩))
        (upload "Budi" "Jl. Mawar 1" "Bandung"
          (some (opened "photo.png" [137, 80, 78, 71])))).trace =
      [(400, [("error", "Image is not a kolam")])] :=
  handleUpload_rejects_other_result
    (scenarioEnv (.ok ⟨200, otherBody⟩) (.ok ⟨200, notDuplicateBody⟩))
    (upload "Budi" "Jl. Mawar 1" "Bandung" (some (opened "photo.png" [137, 80, 78, 71])))
    (opened "photo.png" [137, 80, 78, 71]) [137, 80, 78, 71] ⟨200, otherBody⟩ "other"
    rfl rfl rfl rfl rfl (by decide)

/-! ## C3: the duplicate verdict -/

/-- C3: when the image opens, the classifier has confirmed kolam, the extension
is `.png` or `.jpg`, and the dedupe endpoint answers the request it receives
with status 200 and a body decoding to `duplicate = dup`, `message = msg`, the
handler writes the single response 200 with message `Image is a duplicate` if
`dup` is true and `Image classified as kolam` if it is false, whatever `msg`. -/
theorem handleUpload_duplicate_verdict (env : Env) (c : Context) (hdr : FileHeader)
    (content : List UInt8) (resp : Response) (dup : Bool) (msg : String)
    (hform : c.FormFile "image" = .ok hdr)
    (hopen : hdr.Open = (some (File.stream content 0), none))
    (hkolam : (classifyImage env (.stream content 0)).val = .ok true)
    (hext : Ext hdr.Filename = ".png" ∨ Ext hdr.Filename = ".jpg")
    (hpost : ∀ body ∈ postsTo checkEndpoint (handleUpload env c).trace,
      env.Post checkEndpoint body = .ok resp)
    (hstatus : resp.StatusCode = 200)
    (hdec : env.decodeCheck resp.Body = .ok ⟨dup, msg⟩) :
    responses (handleUpload env c).trace =
      [(200, [("message",
        if dup then "Image is a duplicate" else "Image classified as kolam")])] ∧
    (handleUpload env c).panicked = false := by
  have hposts := (handleUpload_kolam_posts env c hdr content hform hopen hkolam hext).2
  have hP := hpost _ (by rw [hposts]; exact List.mem_singleton.mpr rfl)
  have hcd := checkDuplicate_stream env content content.length
    (c.PostForm "nama_petani") (c.PostForm "alamat") (c.PostForm "kota") hdr.Filename hext
  rw [List.drop_length, hP] at hcd
  rw [handleUpload_opened env c hdr content hform hopen, hkolam]
  simp only [Bool.not_true, Bool.false_eq_true, if_false, classifyImage_stream_file,
    classifyImage_stream_trace, Nat.zero_max, List.drop_zero, hcd]
  simp [hstatus, hdec, StatusOK, responses]

theorem handleUpload_duplicate_verdict_witness :
    responses
      (handleUpload (scenarioEnv (.ok ⟨200, kolamBody⟩) (.ok ⟨200, duplicateBody⟩))
        (upload "Siti" "Jl. Melati 7" "Sleman" (some (opened "kolam.png" [137, 80])))).trace =
      [(200, [("message",
        if true then "Image is a duplicate" else "Image classified as kolam")])] ∧
    (handleUpload (scenarioEnv (.ok ⟨200, kolamBody⟩) (.ok ⟨200, duplicateBody⟩))
        (upload "Siti" "Jl. Melati 7" "Sleman" (some (opened "kolam.png" [137, 80])))).panicked =
      false :=
  handleUpload_duplicate_verdict
    (scenarioEnv (.ok ⟨200, kolamBody⟩) (.ok ⟨200, duplicateBody⟩))
    (upload "Siti" "Jl. Melati 7" "Sleman" (some (opened "kolam.png" [137, 80])))
    (opened "kolam.png" [137, 80]) [137, 80] ⟨200, duplicateBody⟩ true "seen"
    rfl rfl rfl (Or.inl (by decide)) (fun _ _ => rfl) rfl rfl

/-! ## C4: the classifier verdict is exact equality with `kolam` -/

/-- C4: when the classifier answers the posted image with status 200 and a body
decoding to `result = s`, `classifyImage` returns `(b, nil)` with `b` true
exactly when `s` is `kolam`; `Kolam`, `KOLAM`, ` kolam` and `kolam ` give
false. -/
theorem classifyImage_true_iff_kolam (env : Env) (content : List UInt8) (off : Nat)
    (resp : Response) (s : String)
    (hpost : env.Post classifyEndpoint [Part.file "image" "image.jpg" (content.drop off)] =
      .ok resp)
    (hstatus : resp.StatusCode = 200)
    (hdec : env.decodeResult resp.Body = .ok s) :
    (classifyImage env (.stream content off)).val = .ok (decide (s = "kolam")) ∧
    ((classifyImage env (.stream content off)).val = .ok true ↔ s = "kolam") ∧
    (s ∈ ["Kolam", "KOLAM", " kolam", "kolam "] →
      (classifyImage env (.stream content off)).val = .ok false) := by
  have hval : (classifyImage env (.stream content off)).val = .ok (decide (s = "kolam")) := by
    rw [classifyImage_stream]
    simp [hpost, hstatus, hdec, StatusOK]
  refine ⟨hval, ?_, ?_⟩
  · rw [hval]
    simp
  · intro hs
    rw [hval]
    have hne : s ≠ "kolam" := by
      simp only [List.mem_cons, List.mem_singleton, List.not_mem_nil, or_false] at hs
      rcases hs with h | h | h | h <;> rw [h] <;> decide
    simp [hne]

theorem classifyImage_true_iff_kolam_witness :
    (classifyImage (scenarioEnv (.ok ⟨200, kolamBody⟩) (.error "connection refused"))
        (.stream [255, 216, 255] 0)).val = .ok (decide ("kolam" = "kolam")) ∧
    (classifyImage (scenarioEnv (.ok ⟨200, kolamBody⟩) (.error "connection refused"))
        (.stream [255, 216, 255] 0)).val = .ok true :=
  have h := classifyImage_true_iff_kolam
    (scenarioEnv (.ok ⟨200, kolamBody⟩) (.error "connection refused"))
    [255, 216, 255] 0 ⟨200, kolamBody⟩ "kolam" rfl rfl rfl
  ⟨h.1, h.2.1.mpr rfl⟩

/-! ## C5: the extension gate of `checkDuplicate` -/

/-- C5: when the extension of the file name is neither `.png` nor `.jpg`,
`checkDuplicate` returns the error `unsupported file type`, leaves the upload
handle as it was and has no effect at all (no read, no post), whatever the
handle and the metadata; when the extension is `.png` or `.jpg`, it does not
return that error. -/
theorem checkDuplicate_extension_gate (env : Env) (f : File)
    (namaPetani alamat kota nameFile : String) :
    (¬ (Ext nameFile = ".png" ∨ Ext nameFile = ".jpg") →
      (checkDuplicate env f namaPetani alamat kota nameFile).val =
          .error .unsupportedFileType ∧
        Error.unsupportedFileType.message = "unsupported file type" ∧
        (checkDuplicate env f namaPetani alamat kota nameFile).file = f ∧
        (checkDuplicate env f namaPetani alamat kota nameFile).trace = []) ∧
    ((Ext nameFile = ".png" ∨ Ext nameFile = ".jpg") →
      (checkDuplicate env f namaPetani alamat kota nameFile).val ≠
        .error .unsupportedFileType) := by
  constructor
  · intro hext
    rw [checkDuplicate_unsupported env f namaPetani alamat kota nameFile hext]
    exact ⟨rfl, rfl, rfl, rfl⟩
  · intro hext
    cases f with
    | invalid msg =>
      rw [checkDuplicate_invalid env msg namaPetani alamat kota nameFile hext]
      simp
    | stream content off =>
      rw [checkDuplicate_stream env content off namaPetani alamat kota nameFile hext]
      split
      · simp
      · rename_i resp _
        by_cases hs : resp.StatusCode = StatusOK
        · cases hd : env.decodeCheck resp.Body <;> simp [hs]
        · simp [hs]

theorem checkDuplicate_extension_gate_witness :
    (Ext "photo" = "" ∧ Ext "photo.jpeg" = ".jpeg" ∧ Ext "photo.gif" = ".gif" ∧
      Ext "photo.JPG" = ".JPG" ∧ Ext "photo.PNG" = ".PNG" ∧ Ext "archive.png/photo" = "") ∧
    ((checkDuplicate (scenarioEnv (.ok ⟨200, kolamBody⟩) (.ok ⟨200, notDuplicateBody⟩))
        (.stream [71, 73, 70] 0) "Budi" "Jl. Mawar 1" "Bandung" "photo.gif").val =
          .error .unsupportedFileType ∧
      Error.unsupportedFileType.message = "unsupported file type" ∧
      (checkDuplicate (scenarioEnv (.ok ⟨200, kolamBody⟩) (.ok ⟨200, notDuplicateBody⟩))
        (.stream [71, 73, 70] 0) "Budi" "Jl. Mawar 1" "Bandung" "photo.gif").file =
          .stream [71, 73, 70] 0 ∧
      (checkDuplicate (scenarioEnv (.ok ⟨200, kolamBody⟩) (.ok ⟨200, notDuplicateBody⟩))
        (.stream [71, 73, 70] 0) "Budi" "Jl. Mawar 1" "Bandung" "photo.gif").trace = []) ∧
    (checkDuplicate (scenarioEnv (.ok ⟨200, kolamBody⟩) (.ok ⟨200, notDuplicateBody⟩))
        (.stream [255, 216] 0) "Budi" "Jl. Mawar 1" "Bandung" "photo.jpg").val ≠
      .error .unsupportedFileType :=
  ⟨by decide,
    (checkDuplicate_extension_gate
      (scenarioEnv (.ok ⟨200, kolamBody⟩) (.ok ⟨200, notDuplicateBody⟩))
      (.stream [71, 73, 70] 0) "Budi" "Jl. Mawar 1" "Bandung" "photo.gif").1 (by decide),
    (checkDuplicate_extension_gate
      (scenarioEnv (.ok ⟨200, kolamBody⟩) (.ok ⟨200, notDuplicateBody⟩))
      (.stream [255, 216] 0) "Budi" "Jl. Mawar 1" "Bandung" "photo.jpg").2
      (Or.inr (by decide))⟩

/-! ## C6: no image part -/

/-- C6: when the form has no `image` file part, the handler writes the single
response 400 with body `error: Missing image in form data`, reads nothing and
posts to no endpoint, whatever the text fields are. -/
theorem handleUpload_missing_image (env : Env) (c : Context) (e : String)
    (hform : c.FormFile "image" = .error e) :
    handleUpload env c =
      ⟨[Event.abortWithStatusJSON 400 [("error", "Missing image in form data")]], false⟩ ∧
    responses (handleUpload env c).trace = [(400, [("error", "Missing image in form data")])] ∧
    postsTo classifyEndpoint (handleUpload env c).trace = [] ∧
    postsTo checkEndpoint (handleUpload env c).trace = [] := by
  have hrun : handleUpload env c =
      ⟨[Event.abortWithStatusJSON 400 [("error", "Missing image in form data")]], false⟩ := by
    simp [handleUpload, hform, StatusBadRequest]
  rw [hrun]
  exact ⟨rfl, rfl, rfl, rfl⟩

theorem handleUpload_missing_image_witness :
    handleUpload (scenarioEnv (.ok ⟨200, kolamBody⟩) (.ok ⟨200, notDuplicateBody⟩))
        (upload "Budi" "Jl. Mawar 1" "Bandung" none) =
      ⟨[Event.abortWithStatusJSON 400 [("error", "Missing image in form data")]], false⟩ ∧
    responses (handleUpload (scenarioEnv (.ok ⟨200, kolamBody⟩) (.ok ⟨200, notDuplicateBody⟩))
        (upload "Budi" "Jl. Mawar 1" "Bandung" none)).trace =
      [(400, [("error", "Missing image in form data")])] ∧
    postsTo classifyEndpoint
      (handleUpload (scenarioEnv (.ok ⟨200, kolamBody⟩) (.ok ⟨200, notDuplicateBody⟩))
        (upload "Budi" "Jl. Mawar 1" "Bandung" none)).trace = [] ∧
    postsTo checkEndpoint
      (handleUpload (scenarioEnv (.ok ⟨200, kolamBody⟩) (.ok ⟨200, notDuplicateBody⟩))
        (upload "Budi" "Jl. Mawar 1" "Bandung" none)).trace = [] :=
  handleUpload_missing_image
    (scenarioEnv (.ok ⟨200, kolamBody⟩) (.ok ⟨200, notDuplicateBody⟩))
    (upload "Budi" "Jl. Mawar 1" "Bandung" none) "http: no such file" rfl

/-! ## C7: a classifier failure is an error, not a negative verdict -/

/-- C7: when the post to the classifier fails in transport, or is answered with
a status other than 200 (whatever the body), or with a body that does not
decode, `classifyImage` returns an error, and the handler writes the single
response 500 with body `error: Failed to classify image` and never posts to
the dedupe endpoint. -/
theorem handleUpload_classifier_failure (env : Env) (c : Context) (hdr : FileHeader)
    (content : List UInt8)
    (hform : c.FormFile "image" = .ok hdr)
    (hopen : hdr.Open = (some (File.stream content 0), none))
    (hfail :
      (∃ err, env.Post classifyEndpoint [Part.file "image" "image.jpg" content] = .error err) ∨
      (∃ resp, env.Post classifyEndpoint [Part.file "image" "image.jpg" content] = .ok resp ∧
        (resp.StatusCode ≠ 200 ∨ ∃ err, env.decodeResult resp.Body = .error err))) :
    (∃ e, (classifyImage env (.stream content 0)).val = .error e) ∧
    responses (handleUpload env c).trace = [(500, [("error", "Failed to classify image")])] ∧
    postsTo checkEndpoint (handleUpload env c).trace = [] := by
  have hval : ∃ e, (classifyImage env (.stream content 0)).val = .error e := by
    rw [classifyImage_stream]
    rcases hfail with ⟨err, h⟩ | ⟨resp, h, hs | ⟨err, hd⟩⟩
    · simp [h]
    · simp [h, hs, StatusOK]
    · by_cases hs : resp.StatusCode = StatusOK <;> simp [h, hs, hd]
  obtain ⟨e, he⟩ := hval
  refine ⟨⟨e, he⟩, ?_, ?_⟩
  · rw [handleUpload_opened env c hdr content hform hopen, he]
    simp [responses_append, classifyImage_responses, responses, StatusInternalServerError]
  · rw [handleUpload_opened env c hdr content hform hopen, he]
    simp [postsTo_append, classifyImage_postsTo_check, postsTo]

theorem handleUpload_classifier_failure_witness :
    (∃ e, (classifyImage (scenarioEnv (.ok ⟨503, kolamBody⟩) (.ok ⟨200, notDuplicateBody⟩))
      (.stream [255, 216, 255] 0)).val = .error e) ∧
    responses
      (handleUpload (scenarioEnv (.ok ⟨503, kolamBody⟩) (.ok ⟨200, notDuplicateBody⟩))
        (upload "Budi" "Jl. Mawar 1" "Bandung"
          (some (opened "photo.jpg" [255, 216, 255])))).trace =
      [(500, [("error", "Failed to classify image")])] ∧
    postsTo checkEndpoint
      (handleUpload (scenarioEnv (.ok ⟨503, kolamBody⟩) (.ok ⟨200, notDuplicateBody⟩))
        (upload "Budi" "Jl. Mawar 1" "Bandung"
          (some (opened "photo.jpg" [255, 216, 255])))).trace = [] :=
  handleUpload_classifier_failure
    (scenarioEnv (.ok ⟨503, kolamBody⟩) (.ok ⟨200, notDuplicateBody⟩))
    (upload "Budi" "Jl. Mawar 1" "Bandung" (some (opened "photo.jpg" [255, 216, 255])))
    (opened "photo.jpg" [255, 216, 255]) [255, 216, 255] rfl rfl
    (Or.inr ⟨⟨503, kolamBody⟩, rfl, Or.inl (by decide)⟩)

/-! ## C8: an upload that does not open -/

/-- C8, at a failing input: the `image` part is present and `Open` returns an
error.  The handler writes the 400 and goes on, the branch having no `return`.
When `Open` gave back a handle on which reads fail, `classifyImage` runs, its
copy fails, and a second response, 500 `Failed to classify image`, is written
after the 400; when `Open` gave back the nil interface, the handler panics at
the deferred close.  No endpoint is posted to in either case. -/
theorem handleUpload_continues_after_failed_open :
    handleUpload (scenarioEnv (.ok ⟨200, kolamBody⟩) (.ok ⟨200, notDuplicateBody⟩))
        (upload "Budi" "Jl. Mawar 1" "Bandung" (some (unopened "photo.jpg"))) =
      ⟨[Event.abortWithStatusJSON 400 [("error", "Failed to open uploaded file")],
        Event.readFailed,
        Event.abortWithStatusJSON 500 [("error", "Failed to classify image")],
        Event.close], false⟩ ∧
    responses
      (handleUpload (scenarioEnv (.ok ⟨200, kolamBody⟩) (.ok ⟨200, notDuplicateBody⟩))
        (upload "Budi" "Jl. Mawar 1" "Bandung" (some (unopened "photo.jpg")))).trace =
      [(400, [("error", "Failed to open uploaded file")]),
       (500, [("error", "Failed to classify image")])] ∧
    handleUpload (scenarioEnv (.ok ⟨200, kolamBody⟩) (.ok ⟨200, notDuplicateBody⟩))
        (upload "Budi" "Jl. Mawar 1" "Bandung"
          (some ⟨"photo.jpg", (none, some "no such file or directory")⟩)) =
      ⟨[Event.abortWithStatusJSON 400 [("error", "Failed to open uploaded file")]], true⟩ := by
  decide

/-! ## C9: every error of `checkDuplicate` becomes the same 500 -/

/-- C9: when the image opens, the classifier has confirmed kolam and
`checkDuplicate` returns an error, whichever it is (the validation error
`unsupported file type`, a transport failure, a status other than 200, a body
that does not decode), the handler writes the single response 500 with body
`error: Failed to check duplicate`; no 200 response is written. -/
theorem handleUpload_check_error (env : Env) (c : Context) (hdr : FileHeader)
    (content : List UInt8) (e : Error)
    (hform : c.FormFile "image" = .ok hdr)
    (hopen : hdr.Open = (some (File.stream content 0), none))
    (hkolam : (classifyImage env (.stream content 0)).val = .ok true)
    (hcheck : (checkDuplicate env (classifyImage env (.stream content 0)).file
      (c.PostForm "nama_petani") (c.PostForm "alamat") (c.PostForm "kota")
      hdr.Filename).val = .error e) :
    responses (handleUpload env c).trace = [(500, [("error", "Failed to check duplicate")])] ∧
    (∀ r ∈ responses (handleUpload env c).trace, r.1 ≠ 200) := by
  have hresp : responses (handleUpload env c).trace =
      [(500, [("error", "Failed to check duplicate")])] := by
    rw [handleUpload_opened env c hdr content hform hopen, hkolam]
    simp only [Bool.not_true, Bool.false_eq_true, if_false, hcheck]
    simp [responses_append, classifyImage_responses, checkDuplicate_responses, responses,
      StatusInternalServerError]
  rw [hresp]
  exact ⟨rfl, by simp⟩

theorem handleUpload_check_error_witness :
    responses
      (handleUpload (scenarioEnv (.ok ⟨200, kolamBody⟩) (.ok ⟨200, notDuplicateBody⟩))
        (upload "Budi" "Jl. Mawar 1" "Bandung"
          (some (opened "photo.gif" [71, 73, 70])))).trace =
      [(500, [("error", "Failed to check duplicate")])] ∧
    (∀ r ∈ responses
      (handleUpload (scenarioEnv (.ok ⟨200, kolamBody⟩) (.ok ⟨200, notDuplicateBody⟩))
        (upload "Budi" "Jl. Mawar 1" "Bandung"
          (some (opened "photo.gif" [71, 73, 70])))).trace, r.1 ≠ 200) :=
  handleUpload_check_error
    (scenarioEnv (.ok ⟨200, kolamBody⟩) (.ok ⟨200, notDuplicateBody⟩))
    (upload "Budi" "Jl. Mawar 1" "Bandung" (some (opened "photo.gif" [71, 73, 70])))
    (opened "photo.gif" [71, 73, 70]) [71, 73, 70] .unsupportedFileType
    rfl rfl rfl rfl

/-- The four ways `checkDuplicate` fails on a readable handle: the validation
error, a transport failure, a status other than 200, a body that does not
decode.  Each is an error value. -/
theorem checkDuplicate_error_cases (env : Env) (content : List UInt8) (off : Nat)
    (namaPetani alamat kota nameFile : String) :
    (¬ (Ext nameFile = ".png" ∨ Ext nameFile = ".jpg") →
      (checkDuplicate env (.stream content off) namaPetani alamat kota nameFile).val =
        .error .unsupportedFileType) ∧
    ((Ext nameFile = ".png" ∨ Ext nameFile = ".jpg") →
      (∀ err, env.Post checkEndpoint [Part.file "image" (Ext nameFile) (content.drop off),
          Part.field "nama_petani" namaPetani, Part.field "alamat" alamat,
          Part.field "kota" kota] = .error err →
        (checkDuplicate env (.stream content off) namaPetani alamat kota nameFile).val =
          .error (.transport err)) ∧
      (∀ resp, env.Post checkEndpoint [Part.file "image" (Ext nameFile) (content.drop off),
          Part.field "nama_petani" namaPetani, Part.field "alamat" alamat,
          Part.field "kota" kota] = .ok resp →
        (resp.StatusCode ≠ 200 →
          (checkDuplicate env (.stream content off) namaPetani alamat kota nameFile).val =
            .error (.checkStatus resp.StatusCode)) ∧
        (∀ err, resp.StatusCode = 200 → env.decodeCheck resp.Body = .error err →
          (checkDuplicate env (.stream content off) namaPetani alamat kota nameFile).val =
            .error (.decode err)))) := by
  constructor
  · intro hext
    rw [checkDuplicate_unsupported env _ namaPetani alamat kota nameFile hext]
  · intro hext
    rw [checkDuplicate_stream env content off namaPetani alamat kota nameFile hext]
    refine ⟨?_, ?_⟩
    · intro err h
      simp [h]
    · intro resp h
      refine ⟨?_, ?_⟩
      · intro hs
        simp [h, hs, StatusOK]
      · intro err hs hd
        simp [h, hs, hd, StatusOK]

/-! ## C10: the body posted to the dedupe endpoint -/

/-- C10: for a file name whose extension `ext` is `.png` or `.jpg` and any
metadata strings, `checkDuplicate` on a handle whose read succeeds posts to the
dedupe endpoint once, and the body has four parts in this order: the file part
(form field `image`, file name `ext`, holding the bytes read from the handle),
then the text fields `nama_petani`, `alamat`, `kota` with the three strings
unchanged.  On a handle whose read fails nothing is posted. -/
theorem checkDuplicate_body (env : Env) (f : File) (namaPetani alamat kota nameFile : String)
    (hext : Ext nameFile = ".png" ∨ Ext nameFile = ".jpg") :
    postsTo checkEndpoint (checkDuplicate env f namaPetani alamat kota nameFile).trace =
      (match f.readAll.1 with
       | .ok bytes =>
           [[Part.file "image" (Ext nameFile) bytes, Part.field "nama_petani" namaPetani,
             Part.field "alamat" alamat, Part.field "kota" kota]]
       | .error _ => []) ∧
    postsTo classifyEndpoint (checkDuplicate env f namaPetani alamat kota nameFile).trace = [] := by
  cases f with
  | invalid msg =>
    rw [checkDuplicate_invalid env msg namaPetani alamat kota nameFile hext]
    exact ⟨rfl, rfl⟩
  | stream content off =>
    rw [checkDuplicate_stream_trace env content off namaPetani alamat kota nameFile hext]
    simp [postsTo, File.readAll, endpoints_differ.symm]

theorem checkDuplicate_body_witness :
    postsTo checkEndpoint
      (checkDuplicate (scenarioEnv (.ok ⟨200, kolamBody⟩) (.ok ⟨200, notDuplicateBody⟩))
        (.stream [255, 216, 255] 0) "" "Jl. Mawar 1" "Bandung" "sawah/photo.jpg").trace =
      [[Part.file "image" ".jpg" [255, 216, 255], Part.field "nama_petani" "",
        Part.field "alamat" "Jl. Mawar 1", Part.field "kota" "Bandung"]] ∧
    postsTo classifyEndpoint
      (checkDuplicate (scenarioEnv (.ok ⟨200, kolamBody⟩) (.ok ⟨200, notDuplicateBody⟩))
        (.stream [255, 216, 255] 0) "" "Jl. Mawar 1" "Bandung" "sawah/photo.jpg").trace = [] :=
  checkDuplicate_body
    (scenarioEnv (.ok ⟨200, kolamBody⟩) (.ok ⟨200, notDuplicateBody⟩))
    (.stream [255, 216, 255] 0) "" "Jl. Mawar 1" "Bandung" "sawah/photo.jpg"
    (Or.inr (by decide))

end FarmerRegistration
